import Mathlib

/-!
# The ImGui bridge facade: `imgui_bridge.h` and `imgui_bridge.cpp`

The bridge is a flat C surface whose functions forward into the GUI library
(`ImGui::...`), its GLFW platform backend (`ImGui_ImplGlfw_...`) and its WebGPU
renderer backend (`ImGui_ImplWGPU_...`).

The embedding is explicit state passing.  The wrapped libraries are not part of
the repository, so their behaviour is a parameter: a `Library` maps every call
and the current world to the value the call returns and the world it leaves.
Every bridge function is a transformer of a `Machine`, which carries the world
and a log of the calls made into the wrapped libraries, oldest first.
-/

namespace ImguiBridge

/-! ## Values -/

/-- An address held in a C pointer (`void*`, `bool*`, the opaque handles). -/
abbrev Ptr := Nat

/-- The null pointer. -/
def NULL : Ptr := 0

/-- Contents of a `uint32_t` object: a natural number reduced modulo `2^32`. -/
def u32 (x : Nat) : Nat := x % 2 ^ 32

/-- The conversion `(int)x` of a `uint32_t`, `int` being 32 bits wide:
two's-complement narrowing (`imgui_bridge.cpp` line 24). -/
def castInt (x : Nat) : Int :=
  if u32 x < 2 ^ 31 then (u32 x : Int) else (u32 x : Int) - 2 ^ 32

/-- The conversion `(WGPUTextureFormat)x` of a `uint32_t`: the same 32-bit
pattern, read as an enumeration value (`imgui_bridge.cpp` lines 25 and 26). -/
def castTextureFormat (x : Nat) : Nat := u32 x

/-- The pointer conversions `(WGPUDevice)p`, `(GLFWwindow*)p` and
`(WGPURenderPassEncoder)p`: the address is kept. -/
def castHandle (p : Ptr) : Ptr := p

/-- The record `ImGuiWgpuInitC` of `imgui_bridge.h` (lines 7 to 12). -/
structure ImGuiWgpuInitC where
  device : Ptr
  rt_format : Nat
  depth_format : Nat
  frames_in_flight : Nat
  deriving DecidableEq, Repr

/-- The fields of the renderer backend's `ImGui_ImplWGPU_InitInfo` that the
bridge assigns.  The values are those of a value-initialised object (`ii{}`);
fields the bridge never touches are left to the backend and not represented. -/
structure ImGui_ImplWGPU_InitInfo where
  Device : Ptr := NULL
  NumFramesInFlight : Int := 0
  RenderTargetFormat : Nat := 0
  DepthStencilFormat : Nat := 0
  deriving DecidableEq, Repr

/-! ## Calls into the wrapped libraries -/

/-- A call into the GUI library or one of its two backends, with its arguments.
`F` is the type of the flags argument of `igBegin`, which the source spells
`ImGuiWindowFlagsZ` and which no file of the repository declares. -/
inductive LibCall (F : Type) where
  /-- The call `IMGUI_CHECKVERSION()` expands to: the GUI library's version and data-layout check. -/
  | DebugCheckVersionAndDataLayout
  | CreateContext
  | DestroyContext
  | StyleColorsDark
  | ImGui_ImplGlfw_InitForOther (window : Ptr) (install_callbacks : Bool)
  | ImGui_ImplGlfw_Shutdown
  | ImGui_ImplWGPU_Init (ii : ImGui_ImplWGPU_InitInfo)
  | ImGui_ImplWGPU_Shutdown
  | ImGui_ImplGlfw_NewFrame
  | ImGui_ImplWGPU_NewFrame
  | NewFrame
  | Render
  | GetDrawData
  | ImGui_ImplWGPU_RenderDrawData (draw_data : Ptr) (pass : Ptr)
  | Begin (title : String) (opened : Ptr) (flags : F)
  | TextUnformatted (text : String)
  | End
  | Checkbox (label : String) (v : Ptr)
  deriving DecidableEq, Repr

/-- Behaviour of the wrapped libraries over a world `W` (library internals and
every object reachable through the pointers handed in): a call returns a machine
word (a `bool` as 0 or 1, a pointer as its address, 0 for `void`) and leaves a
new world. -/
abbrev Library (W F : Type) := LibCall F → W → Nat × W

/-- Objects with static storage duration defined by `imgui_bridge.cpp`: the
translation unit defines none, so the record has no field. -/
structure BridgeState where
  deriving DecidableEq, Repr

/-- The state the bridge functions run on. -/
structure Machine (W F : Type) where
  bridge : BridgeState
  world : W
  calls : List (LibCall F)

variable {W F : Type}

/-- One call into the wrapped libraries: the library acts on the world, the
call is logged, and the returned word is handed to the caller. -/
def invoke (L : Library W F) (c : LibCall F) (m : Machine W F) : Nat × Machine W F :=
  ((L c m.world).1, { m with world := (L c m.world).2, calls := m.calls ++ [c] })

/-! ## The bridge functions (`imgui_bridge.cpp`)

Each returns the C return value (`Unit` for `void`) and the machine it leaves. -/

/-- Source function `void igCreateContext(void)`, lines 9 to 12. -/
def igCreateContext (L : Library W F) (m : Machine W F) : Unit × Machine W F :=
  let m1 := (invoke L .DebugCheckVersionAndDataLayout m).2
  let m2 := (invoke L .CreateContext m1).2
  ((), m2)

/-- Source function `void igDestroyContext(void)`, line 13. -/
def igDestroyContext (L : Library W F) (m : Machine W F) : Unit × Machine W F :=
  ((), (invoke L .DestroyContext m).2)

/-- Source function `void igStyleDark(void)`, line 14. -/
def igStyleDark (L : Library W F) (m : Machine W F) : Unit × Machine W F :=
  ((), (invoke L .StyleColorsDark m).2)

/-- Source function `void igGlfwInit(void* glfw_window, bool install_callbacks)`, lines 16 to 18. -/
def igGlfwInit (L : Library W F) (glfw_window : Ptr) (install_callbacks : Bool)
    (m : Machine W F) : Unit × Machine W F :=
  ((), (invoke L (.ImGui_ImplGlfw_InitForOther (castHandle glfw_window) install_callbacks) m).2)

/-- Source function `void igGlfwShutdown(void)`, line 19. -/
def igGlfwShutdown (L : Library W F) (m : Machine W F) : Unit × Machine W F :=
  ((), (invoke L .ImGui_ImplGlfw_Shutdown m).2)

/-- Source function `void igWgpuInit(const ImGuiWgpuInitC* info)`, lines 21 to 29; `info` is the
record the pointer designates. -/
def igWgpuInit (L : Library W F) (info : ImGuiWgpuInitC) (m : Machine W F) :
    Unit × Machine W F :=
  let ii : ImGui_ImplWGPU_InitInfo := {}
  let ii := { ii with Device := castHandle info.device }
  let ii := { ii with NumFramesInFlight := castInt info.frames_in_flight }
  let ii := { ii with RenderTargetFormat := castTextureFormat info.rt_format }
  let ii := { ii with DepthStencilFormat := castTextureFormat info.depth_format }
  ((), (invoke L (.ImGui_ImplWGPU_Init ii) m).2)

/-- Source function `void igWgpuShutdown(void)`, line 30. -/
def igWgpuShutdown (L : Library W F) (m : Machine W F) : Unit × Machine W F :=
  ((), (invoke L .ImGui_ImplWGPU_Shutdown m).2)

/-- Source function `void igNewFrameGlfw(void)`, line 32. -/
def igNewFrameGlfw (L : Library W F) (m : Machine W F) : Unit × Machine W F :=
  ((), (invoke L .ImGui_ImplGlfw_NewFrame m).2)

/-- Source function `void igNewFrameWgpu(void)`, line 33. -/
def igNewFrameWgpu (L : Library W F) (m : Machine W F) : Unit × Machine W F :=
  ((), (invoke L .ImGui_ImplWGPU_NewFrame m).2)

/-- Source function `void igNewFrame(void)`, line 34. -/
def igNewFrame (L : Library W F) (m : Machine W F) : Unit × Machine W F :=
  ((), (invoke L .NewFrame m).2)

/-- Source function `void igRender(void)`, line 35. -/
def igRender (L : Library W F) (m : Machine W F) : Unit × Machine W F :=
  ((), (invoke L .Render m).2)

/-- Source function `void igRenderDrawData(void* pass)`, lines 37 to 39: the argument
`ImGui::GetDrawData()` is evaluated, then the backend is called with it. -/
def igRenderDrawData (L : Library W F) (pass : Ptr) (m : Machine W F) : Unit × Machine W F :=
  let r := invoke L .GetDrawData m
  ((), (invoke L (.ImGui_ImplWGPU_RenderDrawData r.1 (castHandle pass)) r.2).2)

/-- Source function `void igBegin(const char* title, bool* opened, ImGuiWindowFlagsZ flags)`,
line 41: the value `ImGui::Begin` returns is not used. -/
def igBegin (L : Library W F) (title : String) (opened : Ptr) (flags : F)
    (m : Machine W F) : Unit × Machine W F :=
  ((), (invoke L (.Begin title opened flags) m).2)

/-- Source function `void igText(const char* text)`, line 42. -/
def igText (L : Library W F) (text : String) (m : Machine W F) : Unit × Machine W F :=
  ((), (invoke L (.TextUnformatted text) m).2)

/-- Source function `void igEnd(void)`, line 43. -/
def igEnd (L : Library W F) (m : Machine W F) : Unit × Machine W F :=
  ((), (invoke L .End m).2)

/-- Source function `void igCheckbox(const char* label, bool* v)`, line 45: the value
`ImGui::Checkbox` returns is not used. -/
def igCheckbox (L : Library W F) (label : String) (v : Ptr) (m : Machine W F) :
    Unit × Machine W F :=
  ((), (invoke L (.Checkbox label v) m).2)

/-! ## Sequences of bridge operations -/

/-- A bridge operation together with the arguments it is called with. -/
inductive Op (F : Type) where
  | igCreateContext
  | igDestroyContext
  | igStyleDark
  | igGlfwInit (glfw_window : Ptr) (install_callbacks : Bool)
  | igGlfwShutdown
  | igWgpuInit (info : ImGuiWgpuInitC)
  | igWgpuShutdown
  | igNewFrameGlfw
  | igNewFrameWgpu
  | igNewFrame
  | igRender
  | igRenderDrawData (pass : Ptr)
  | igBegin (title : String) (opened : Ptr) (flags : F)
  | igText (text : String)
  | igEnd
  | igCheckbox (label : String) (v : Ptr)
  deriving DecidableEq, Repr

/-- Running one operation: the machine the corresponding bridge function leaves. -/
def step (L : Library W F) : Op F → Machine W F → Machine W F
  | .igCreateContext, m => (igCreateContext L m).2
  | .igDestroyContext, m => (igDestroyContext L m).2
  | .igStyleDark, m => (igStyleDark L m).2
  | .igGlfwInit w cb, m => (igGlfwInit L w cb m).2
  | .igGlfwShutdown, m => (igGlfwShutdown L m).2
  | .igWgpuInit info, m => (igWgpuInit L info m).2
  | .igWgpuShutdown, m => (igWgpuShutdown L m).2
  | .igNewFrameGlfw, m => (igNewFrameGlfw L m).2
  | .igNewFrameWgpu, m => (igNewFrameWgpu L m).2
  | .igNewFrame, m => (igNewFrame L m).2
  | .igRender, m => (igRender L m).2
  | .igRenderDrawData pass, m => (igRenderDrawData L pass m).2
  | .igBegin title opened flags, m => (igBegin L title opened flags m).2
  | .igText text, m => (igText L text m).2
  | .igEnd, m => (igEnd L m).2
  | .igCheckbox label v, m => (igCheckbox L label v m).2

/-- Running a sequence of operations, first to last. -/
def run (L : Library W F) : List (Op F) → Machine W F → Machine W F
  | [], m => m
  | op :: ops, m => run L ops (step L op m)

/-- The calls an operation adds to the log when run from `m`. -/
def issued (L : Library W F) (op : Op F) (m : Machine W F) : List (LibCall F) :=
  (step L op m).calls.drop m.calls.length

/-- The draw data the GUI library reports in world `w`: what `ImGui::GetDrawData()`
returns there. -/
def drawData (L : Library W F) (w : W) : Ptr := (L .GetDrawData w).1

/-- The library call or calls each operation relays, read off its body; `dd` is
the value `ImGui::GetDrawData()` returns at that moment. -/
def callsOf (dd : Ptr) : Op F → List (LibCall F)
  | .igCreateContext => [.DebugCheckVersionAndDataLayout, .CreateContext]
  | .igDestroyContext => [.DestroyContext]
  | .igStyleDark => [.StyleColorsDark]
  | .igGlfwInit w cb => [.ImGui_ImplGlfw_InitForOther w cb]
  | .igGlfwShutdown => [.ImGui_ImplGlfw_Shutdown]
  | .igWgpuInit info =>
      [.ImGui_ImplWGPU_Init
        { Device := info.device
          NumFramesInFlight := castInt info.frames_in_flight
          RenderTargetFormat := castTextureFormat info.rt_format
          DepthStencilFormat := castTextureFormat info.depth_format }]
  | .igWgpuShutdown => [.ImGui_ImplWGPU_Shutdown]
  | .igNewFrameGlfw => [.ImGui_ImplGlfw_NewFrame]
  | .igNewFrameWgpu => [.ImGui_ImplWGPU_NewFrame]
  | .igNewFrame => [.NewFrame]
  | .igRender => [.Render]
  | .igRenderDrawData pass => [.GetDrawData, .ImGui_ImplWGPU_RenderDrawData dd pass]
  | .igBegin title opened flags => [.Begin title opened flags]
  | .igText text => [.TextUnformatted text]
  | .igEnd => [.End]
  | .igCheckbox label v => [.Checkbox label v]

/-- The world a list of library calls leaves, made one after the other. -/
def applyCalls (L : Library W F) (cs : List (LibCall F)) (w : W) : W :=
  cs.foldl (fun w c => (L c w).2) w

/-- The concatenation, in order, of the calls each operation of a sequence
relays, started in world `w`. -/
def relayedCalls (L : Library W F) : List (Op F) → W → List (LibCall F)
  | [], _ => []
  | op :: ops, w =>
      callsOf (drawData L w) op ++
        relayedCalls L ops (applyCalls L (callsOf (drawData L w) op) w)

/-- The frame of section 8 of the specification up to and including render:
create-context, both backend inits, the three begin-frames, one text widget,
render. -/
def scenarioUntilRender (window device : Ptr) : List (Op F) :=
  [ .igCreateContext,
    .igGlfwInit window true,
    .igWgpuInit { device := device, rt_format := 23, depth_format := 0, frames_in_flight := 3 },
    .igNewFrameGlfw,
    .igNewFrameWgpu,
    .igNewFrame,
    .igText "Hello",
    .igRender ]

/-- The whole scenario: the frame above followed by submit-draw-data. -/
def scenario (window device pass : Ptr) : List (Op F) :=
  scenarioUntilRender window device ++ [.igRenderDrawData pass]

/-! ## Library instances used at concrete inputs -/

/-- A library whose every call returns the word `r` and leaves the world as it is. -/
def constLibrary (r : Nat) : Library W F := fun _ w => (r, w)

/-- A library whose world records only whether the GUI library holds finalized
draw data: `Render` finalizes it, `NewFrame` discards it, and `GetDrawData`
returns the address 4096 when it is there and the null pointer otherwise. -/
def frameLibrary : Library Bool Nat
  | .Render, _ => (0, true)
  | .NewFrame, _ => (0, false)
  | .GetDrawData, valid => (if valid then 4096 else 0, valid)
  | _, valid => (0, valid)

/-- A machine with an empty call log. -/
def freshMachine (w : W) : Machine W F := { bridge := {}, world := w, calls := [] }

/-! ## The published declarations (`imgui_bridge.h`) and the definitions -/

/-- A parameter type as written: base type name, `const` qualifier, pointer. -/
structure CType where
  base : String
  isConst : Bool := false
  isPtr : Bool := false
  deriving DecidableEq, Repr

/-- Name and parameter list of a function; `(void)` is the empty list. -/
structure Signature where
  name : String
  params : List CType
  deriving DecidableEq, Repr

/-- The type `void*`. -/
def voidPtr : CType := { base := "void", isPtr := true }

/-- The type `const char*`. -/
def constCharPtr : CType := { base := "char", isConst := true, isPtr := true }

/-- The type `bool*`. -/
def boolPtr : CType := { base := "bool", isPtr := true }

/-- The function declarations of `imgui_bridge.h`, lines 14 to 36, in order. -/
def headerDeclarations : List Signature :=
  [ ⟨"igCreateContext", []⟩,
    ⟨"igDestroyContext", []⟩,
    ⟨"igStyleDark", []⟩,
    ⟨"igGlfwInit", [voidPtr, { base := "bool" }]⟩,
    ⟨"igGlfwShutdown", []⟩,
    ⟨"igWgpuInit", [{ base := "ImGuiWgpuInitC", isConst := true, isPtr := true }]⟩,
    ⟨"igWgpuShutdown", []⟩,
    ⟨"igNewFrameGlfw", []⟩,
    ⟨"igNewFrameWgpu", []⟩,
    ⟨"igNewFrame", []⟩,
    ⟨"igRender", []⟩,
    ⟨"igRenderDrawData", [voidPtr]⟩,
    ⟨"igBegin", [constCharPtr]⟩,
    ⟨"igText", [constCharPtr]⟩,
    ⟨"igEnd", []⟩ ]

/-- The function definitions of `imgui_bridge.cpp`, lines 9 to 45, in order. -/
def sourceDefinitions : List Signature :=
  [ ⟨"igCreateContext", []⟩,
    ⟨"igDestroyContext", []⟩,
    ⟨"igStyleDark", []⟩,
    ⟨"igGlfwInit", [voidPtr, { base := "bool" }]⟩,
    ⟨"igGlfwShutdown", []⟩,
    ⟨"igWgpuInit", [{ base := "ImGuiWgpuInitC", isConst := true, isPtr := true }]⟩,
    ⟨"igWgpuShutdown", []⟩,
    ⟨"igNewFrameGlfw", []⟩,
    ⟨"igNewFrameWgpu", []⟩,
    ⟨"igNewFrame", []⟩,
    ⟨"igRender", []⟩,
    ⟨"igRenderDrawData", [voidPtr]⟩,
    ⟨"igBegin", [constCharPtr, boolPtr, { base := "ImGuiWindowFlagsZ" }]⟩,
    ⟨"igText", [constCharPtr]⟩,
    ⟨"igEnd", []⟩,
    ⟨"igCheckbox", [constCharPtr, boolPtr]⟩ ]

/-- Type names available through `imgui_bridge.h` itself: the language's `void`
and `char`, what `stdint.h` and `stdbool.h` give the record, and the record. -/
def headerTypes : List String := ["void", "char", "bool", "uint32_t", "ImGuiWgpuInitC"]

/-- Whether every defined function is declared in the header with the same name
and the same parameter list. -/
def definitionsDeclared : Bool :=
  sourceDefinitions.all fun d => headerDeclarations.contains d

/-- The parameter list the header declares for a function name, if it declares it. -/
def declaredParams (name : String) : Option (List CType) :=
  (headerDeclarations.find? fun d => d.name == name).map Signature.params

/-- The parameter list the source file defines a function name with, if it defines it. -/
def definedParams (name : String) : Option (List CType) :=
  (sourceDefinitions.find? fun d => d.name == name).map Signature.params

/-- Whether a call is the renderer backend's init. -/
def isRendererInit : LibCall F → Bool
  | .ImGui_ImplWGPU_Init _ => true
  | _ => false

/-- Whether a call is the renderer backend's render-draw-data. -/
def isSubmit : LibCall F → Bool
  | .ImGui_ImplWGPU_RenderDrawData _ _ => true
  | _ => false

/-! ## Lemmas shared by the claims -/

theorem step_eq (L : Library W F) (op : Op F) (m : Machine W F) :
    step L op m =
      { bridge := m.bridge
        world := applyCalls L (callsOf (drawData L m.world) op) m.world
        calls := m.calls ++ callsOf (drawData L m.world) op } := by
  cases op <;>
    simp [step, callsOf, applyCalls, drawData, invoke, igCreateContext, igDestroyContext,
      igStyleDark, igGlfwInit, igGlfwShutdown, igWgpuInit, igWgpuShutdown, igNewFrameGlfw,
      igNewFrameWgpu, igNewFrame, igRender, igRenderDrawData, igBegin, igText, igEnd,
      igCheckbox, castHandle]

theorem issued_eq (L : Library W F) (op : Op F) (m : Machine W F) :
    issued L op m = callsOf (drawData L m.world) op := by
  simp [issued, step_eq]

theorem run_calls (L : Library W F) (ops : List (Op F)) (m : Machine W F) :
    (run L ops m).calls = m.calls ++ relayedCalls L ops m.world := by
  induction ops generalizing m with
  | nil => simp [run, relayedCalls]
  | cons op ops ih => simp [run, relayedCalls, ih, step_eq]

theorem run_bridge (L : Library W F) (ops : List (Op F)) (m : Machine W F) :
    (run L ops m).bridge = m.bridge := by
  induction ops generalizing m with
  | nil => rfl
  | cons op ops ih => simp [run, ih, step_eq]

theorem run_append (L : Library W F) (xs ys : List (Op F)) (m : Machine W F) :
    run L (xs ++ ys) m = run L ys (run L xs m) := by
  induction xs generalizing m with
  | nil => rfl
  | cons op xs ih => simp [run, ih]

theorem castInt_of_lt {n : Nat} (h : n < 2 ^ 31) : castInt n = (n : Int) := by
  unfold castInt u32
  split <;> omega

theorem castInt_of_ge {n : Nat} (h : 2 ^ 31 ≤ n) (h32 : n < 2 ^ 32) :
    castInt n = (n : Int) - 2 ^ 32 := by
  unfold castInt u32
  split <;> omega

theorem castTextureFormat_of_lt {x : Nat} (h : x < 2 ^ 32) : castTextureFormat x = x := by
  unfold castTextureFormat u32
  omega

/-! ## The claims -/

/-- C1: for a valid Initialization Record (device d, formats r and z as 32-bit
codes, frame count n positive and representable as an int) igWgpuInit makes
exactly one call into the libraries, the renderer backend init, and its init-info
carries d, n, r and z untransformed; the world it leaves is the one that call
leaves. -/
theorem igWgpuInit_forwards_record (L : Library W F) (m : Machine W F) (d r z n : Nat)
    (hr : r < 2 ^ 32) (hz : z < 2 ^ 32) (hpos : 0 < n) (hn : n < 2 ^ 31) :
    (igWgpuInit L ⟨d, r, z, n⟩ m).2.calls =
        m.calls ++ [.ImGui_ImplWGPU_Init
          { Device := d, NumFramesInFlight := (n : Int),
            RenderTargetFormat := r, DepthStencilFormat := z }]
      ∧ (issued L (.igWgpuInit ⟨d, r, z, n⟩) m).countP isRendererInit = 1
      ∧ (igWgpuInit L ⟨d, r, z, n⟩ m).2.world =
          (L (.ImGui_ImplWGPU_Init
            { Device := d, NumFramesInFlight := (n : Int),
              RenderTargetFormat := r, DepthStencilFormat := z }) m.world).2 := by
  have _ := hpos
  refine ⟨?_, ?_, ?_⟩
  · simp [igWgpuInit, invoke, castHandle, castInt_of_lt hn, castTextureFormat_of_lt hr,
      castTextureFormat_of_lt hz]
  · simp [issued_eq, callsOf, isRendererInit]
  · simp [igWgpuInit, invoke, castHandle, castInt_of_lt hn, castTextureFormat_of_lt hr,
      castTextureFormat_of_lt hz]

/-- C1 at a concrete record: device 4096, render-target format 23, no depth
attachment (0), three frames in flight. -/
theorem igWgpuInit_forwards_record_witness :
    (igWgpuInit (constLibrary 0 : Library Unit Unit) ⟨4096, 23, 0, 3⟩ (freshMachine ())).2.calls =
        (freshMachine ()).calls ++ [.ImGui_ImplWGPU_Init
          { Device := 4096, NumFramesInFlight := ((3 : Nat) : Int),
            RenderTargetFormat := 23, DepthStencilFormat := 0 }]
      ∧ (issued (constLibrary 0 : Library Unit Unit) (.igWgpuInit ⟨4096, 23, 0, 3⟩)
          (freshMachine ())).countP isRendererInit = 1
      ∧ (igWgpuInit (constLibrary 0 : Library Unit Unit) ⟨4096, 23, 0, 3⟩
          (freshMachine ())).2.world =
          ((constLibrary 0 : Library Unit Unit) (.ImGui_ImplWGPU_Init
            { Device := 4096, NumFramesInFlight := ((3 : Nat) : Int),
              RenderTargetFormat := 23, DepthStencilFormat := 0 })
            (freshMachine () : Machine Unit Unit).world).2 :=
  igWgpuInit_forwards_record (constLibrary 0) (freshMachine ()) 4096 23 0 3
    (by decide) (by decide) (by decide) (by decide)

/-- C10: for every 32-bit frames_in_flight value n the NumFramesInFlight handed
to the renderer backend equals n exactly when n < 2^31, and is n - 2^32 when
n >= 2^31; the two format codes and the device handle arrive unchanged. -/
theorem igWgpuInit_narrows_frame_count (L : Library W F) (m : Machine W F) (d r z n : Nat)
    (hn : n < 2 ^ 32) (hr : r < 2 ^ 32) (hz : z < 2 ^ 32) :
    ∃ ii : ImGui_ImplWGPU_InitInfo,
      (igWgpuInit L ⟨d, r, z, n⟩ m).2.calls = m.calls ++ [.ImGui_ImplWGPU_Init ii]
      ∧ (ii.NumFramesInFlight = (n : Int) ↔ n < 2 ^ 31)
      ∧ (2 ^ 31 ≤ n → ii.NumFramesInFlight = (n : Int) - 2 ^ 32)
      ∧ ii.RenderTargetFormat = r
      ∧ ii.DepthStencilFormat = z
      ∧ ii.Device = d := by
  refine ⟨{ Device := d, NumFramesInFlight := castInt n,
            RenderTargetFormat := r, DepthStencilFormat := z }, ?_, ?_, ?_, rfl, rfl, rfl⟩
  · simp [igWgpuInit, invoke, castHandle, castTextureFormat_of_lt hr,
      castTextureFormat_of_lt hz]
  · constructor
    · intro h
      by_contra hlt
      have hge : 2 ^ 31 ≤ n := by omega
      have := castInt_of_ge hge hn
      simp only [] at h
      omega
    · intro h
      exact castInt_of_lt h
  · intro h
    exact castInt_of_ge h hn

/-- C10 at the largest 32-bit frame count: 4294967295 is forwarded as the
negative number 4294967295 - 2^32. -/
theorem igWgpuInit_narrows_frame_count_witness :
    ∃ ii : ImGui_ImplWGPU_InitInfo,
      (igWgpuInit (constLibrary 0 : Library Unit Unit) ⟨4096, 23, 0, 4294967295⟩
          (freshMachine ())).2.calls = (freshMachine ()).calls ++ [.ImGui_ImplWGPU_Init ii]
      ∧ (ii.NumFramesInFlight = ((4294967295 : Nat) : Int) ↔ 4294967295 < 2 ^ 31)
      ∧ (2 ^ 31 ≤ 4294967295 → ii.NumFramesInFlight = ((4294967295 : Nat) : Int) - 2 ^ 32)
      ∧ ii.RenderTargetFormat = 23
      ∧ ii.DepthStencilFormat = 0
      ∧ ii.Device = 4096 :=
  igWgpuInit_narrows_frame_count (constLibrary 0) (freshMachine ()) 4096 23 0 4294967295
    (by decide) (by decide) (by decide)

/-- C2, refuted as stated: no function of what igBegin, or igCheckbox, hands back
to its caller recovers the value the library call returned.  Both return void,
so the same nothing comes back whether the library answers 1 or 0. -/
theorem bridge_result_not_library_result :
    (¬ ∃ f : Unit → Nat, ∀ (L : Library Unit Unit) (m : Machine Unit Unit),
        f (igBegin L "Demo" NULL () m).1 = (L (.Begin "Demo" NULL ()) m.world).1)
      ∧ (¬ ∃ f : Unit → Nat, ∀ (L : Library Unit Unit) (m : Machine Unit Unit),
        f (igCheckbox L "vsync" 64 m).1 = (L (.Checkbox "vsync" 64) m.world).1) := by
  constructor
  · rintro ⟨f, hf⟩
    have h : (1 : Nat) = 0 :=
      (hf (constLibrary 1) (freshMachine ())).symm.trans (hf (constLibrary 0) (freshMachine ()))
    exact absurd h (by decide)
  · rintro ⟨f, hf⟩
    have h : (1 : Nat) = 0 :=
      (hf (constLibrary 1) (freshMachine ())).symm.trans (hf (constLibrary 0) (freshMachine ()))
    exact absurd h (by decide)

/-- C2, amended: igBegin and igCheckbox return nothing.  Each makes the one
library call with its arguments unchanged and leaves the machine that call
leaves, and the word the library returns is discarded: two libraries that leave
the same worlds and differ only in the values they return give the same outcome. -/
theorem begin_checkbox_discard_result (L L2 : Library W F) (m : Machine W F)
    (title label : String) (opened v : Ptr) (flags : F) :
    igBegin L title opened flags m = ((), (invoke L (.Begin title opened flags) m).2)
      ∧ igCheckbox L label v m = ((), (invoke L (.Checkbox label v) m).2)
      ∧ ((∀ c w, (L c w).2 = (L2 c w).2) →
          igBegin L title opened flags m = igBegin L2 title opened flags m
          ∧ igCheckbox L label v m = igCheckbox L2 label v m) := by
  refine ⟨rfl, rfl, ?_⟩
  intro h
  simp [igBegin, igCheckbox, invoke, h]

/-- C3, refuted as stated: create-context makes two calls into the GUI library,
the version and data-layout check first and the context creation second, not
the context creation alone. -/
theorem igCreateContext_issues_version_check :
    (igCreateContext (constLibrary 0 : Library Unit Unit) (freshMachine ())).2.calls =
        [.DebugCheckVersionAndDataLayout, .CreateContext]
      ∧ (igCreateContext (constLibrary 0 : Library Unit Unit) (freshMachine ())).2.calls ≠
        [.CreateContext] := by
  constructor <;> decide

/-- C3, amended: create-context issues the GUI library version and data-layout
check once, immediately before the context creation; no other operation issues
it, and every operation makes exactly the calls it relays (one call, or for
submit-draw-data the draw-data query followed by the backend call). -/
theorem only_create_context_checks (L : Library W F) (op : Op F) (m : Machine W F) :
    issued L .igCreateContext m = [.DebugCheckVersionAndDataLayout, .CreateContext]
      ∧ (LibCall.DebugCheckVersionAndDataLayout ∈ issued L op m ↔ op = .igCreateContext)
      ∧ issued L op m = callsOf (drawData L m.world) op
      ∧ (op ≠ .igCreateContext → (∀ p, op ≠ .igRenderDrawData p) →
          (issued L op m).length = 1) := by
  refine ⟨by simp [issued_eq, callsOf], ?_, issued_eq L op m, ?_⟩
  · rw [issued_eq]
    cases op <;> simp [callsOf]
  · rw [issued_eq]
    cases op <;> simp [callsOf]

/-- C4: igBegin with a null open-flag pointer makes the one call Begin(title,
NULL, flags) with all three arguments unchanged, and the machine it leaves is
the one that call leaves: the bridge state is untouched, the world is the
library's, so whatever the library leaves unchanged (any cell read out of the
world) is unchanged after igBegin. -/
theorem igBegin_null_open_flag (L : Library W F) (m : Machine W F) (title : String)
    (flags : F) :
    (igBegin L title NULL flags m).2.calls = m.calls ++ [.Begin title NULL flags]
      ∧ (igBegin L title NULL flags m).2.world = (L (.Begin title NULL flags) m.world).2
      ∧ (igBegin L title NULL flags m).2.bridge = m.bridge
      ∧ (∀ (α : Type) (read : W → α),
          read (L (.Begin title NULL flags) m.world).2 = read m.world →
          read (igBegin L title NULL flags m).2.world = read m.world) := by
  refine ⟨rfl, rfl, rfl, ?_⟩
  intro α read h
  exact h

/-- C5: igCheckbox makes the one call Checkbox(label, v) with exactly the label
and the location it was given, and the world it leaves is the one that call
leaves: the bridge writes nothing itself, so a stored boolean (any cell read
out of the world) that the library leaves unchanged is unchanged after
igCheckbox, and one that differs afterwards was changed by the library call. -/
theorem igCheckbox_forwards_location (L : Library W F) (m : Machine W F) (label : String)
    (v : Ptr) :
    (igCheckbox L label v m).2.calls = m.calls ++ [.Checkbox label v]
      ∧ (igCheckbox L label v m).2.world = (L (.Checkbox label v) m.world).2
      ∧ (igCheckbox L label v m).2.bridge = m.bridge
      ∧ (∀ (α : Type) (read : W → α),
          (read (L (.Checkbox label v) m.world).2 = read m.world →
            read (igCheckbox L label v m).2.world = read m.world)
          ∧ (read (igCheckbox L label v m).2.world ≠ read m.world →
            read (L (.Checkbox label v) m.world).2 ≠ read m.world)) := by
  refine ⟨rfl, rfl, rfl, ?_⟩
  intro α read
  exact ⟨fun h => h, fun h => h⟩

/-- C6: igRenderDrawData asks the GUI library for its current draw data and then
calls the renderer backend render-draw-data exactly once, with that draw data
as first argument and the pass it was given as second. -/
theorem igRenderDrawData_forwards (L : Library W F) (m : Machine W F) (p : Ptr) :
    (igRenderDrawData L p m).2.calls =
        m.calls ++ [.GetDrawData, .ImGui_ImplWGPU_RenderDrawData (drawData L m.world) p]
      ∧ (issued L (.igRenderDrawData p) m).countP isSubmit = 1
      ∧ (igRenderDrawData L p m).2.world =
          (L (.ImGui_ImplWGPU_RenderDrawData (drawData L m.world) p)
            (L .GetDrawData m.world).2).2
      ∧ (igRenderDrawData L p m).2.bridge = m.bridge := by
  refine ⟨?_, ?_, rfl, rfl⟩
  · simp [igRenderDrawData, invoke, drawData, castHandle]
  · simp [issued_eq, callsOf, isSubmit]

/-- C7: call order is preserved.  The log a sequence of operations leaves is the
log before it followed by the concatenation, in order, of the calls each
operation relays; and the scenario (create-context, windowing init with
callbacks, renderer init with 23, 0 and 3, the three begin-frames, text Hello,
render, submit to pass p) yields the library calls in that order, the renderer
init receiving 23, 0 and 3 and the submission receiving the draw data reported
after render and p.  The bridge functions are total state transformers: the
source has no assertion statement of its own, and the one check in the log is
the library version check that create-context relays. -/
theorem call_order_preserved (L : Library W F) (m : Machine W F) (ops more : List (Op F))
    (window device p : Ptr) :
    (run L ops m).calls = m.calls ++ relayedCalls L ops m.world
      ∧ (run L (ops ++ more) m).calls =
          m.calls ++ (relayedCalls L ops m.world ++ relayedCalls L more (run L ops m).world)
      ∧ (run L (scenario window device p) m).calls =
          m.calls ++
            [ .DebugCheckVersionAndDataLayout,
              .CreateContext,
              .ImGui_ImplGlfw_InitForOther window true,
              .ImGui_ImplWGPU_Init
                { Device := device, NumFramesInFlight := 3,
                  RenderTargetFormat := 23, DepthStencilFormat := 0 },
              .ImGui_ImplGlfw_NewFrame,
              .ImGui_ImplWGPU_NewFrame,
              .NewFrame,
              .TextUnformatted "Hello",
              .Render,
              .GetDrawData,
              .ImGui_ImplWGPU_RenderDrawData
                (drawData L (run L (scenarioUntilRender window device) m).world) p ] := by
  refine ⟨run_calls L ops m, ?_, ?_⟩
  · rw [run_append, run_calls, run_calls, List.append_assoc]
  · have h3 : castInt 3 = 3 := by decide
    have h23 : castTextureFormat 23 = 23 := by decide
    have h0 : castTextureFormat 0 = 0 := by decide
    simp [scenario, scenarioUntilRender, run, step_eq, callsOf, applyCalls, h3, h23, h0]

/-- C8, evaluated on the code: the header does not declare every defined
operation with the same parameter list.  It declares igBegin with the title
alone while the source file defines it with title, open-flag pointer and flags;
it declares no igCheckbox at all; and the flags type the definition names,
ImGuiWindowFlagsZ, is not a type the header provides. -/
theorem header_disagrees_with_definitions :
    definitionsDeclared = false
      ∧ declaredParams "igBegin" = some [constCharPtr]
      ∧ definedParams "igBegin" =
          some [constCharPtr, boolPtr, { base := "ImGuiWindowFlagsZ" }]
      ∧ declaredParams "igCheckbox" = none
      ∧ definedParams "igCheckbox" = some [constCharPtr, boolPtr]
      ∧ headerTypes.contains "ImGuiWindowFlagsZ" = false := by
  decide

/-- C9, refuted as stated: the calls submit-draw-data issues depend on what was
called before it.  With a library that reports draw data only once render has
finalized it, igRenderDrawData(7) hands the backend the null pointer when
nothing ran before and the address 4096 when igRender ran before. -/
theorem submit_depends_on_earlier_render :
    issued frameLibrary (.igRenderDrawData 7) (run frameLibrary [] (freshMachine false)) =
        [.GetDrawData, .ImGui_ImplWGPU_RenderDrawData 0 7]
      ∧ issued frameLibrary (.igRenderDrawData 7)
          (run frameLibrary [.igRender] (freshMachine false)) =
        [.GetDrawData, .ImGui_ImplWGPU_RenderDrawData 4096 7]
      ∧ issued frameLibrary (.igRenderDrawData 7) (run frameLibrary [] (freshMachine false)) ≠
        issued frameLibrary (.igRenderDrawData 7)
          (run frameLibrary [.igRender] (freshMachine false)) := by
  refine ⟨?_, ?_, ?_⟩ <;> decide

/-- C9, amended: the bridge keeps no state of its own.  Create-context followed
by destroy-context leaves the bridge state as it was, every change to the world
being the work of the three library calls; after any history the bridge state is
the initial one; and the calls an operation issues depend only on its arguments
and, for submit-draw-data, on the draw data the GUI library reports at that
moment. -/
theorem bridge_keeps_no_state (L : Library W F) (m m1 m2 : Machine W F) (op : Op F)
    (history : List (Op F)) :
    (igDestroyContext L (igCreateContext L m).2).2.bridge = m.bridge
      ∧ (igDestroyContext L (igCreateContext L m).2).2.world =
          (L .DestroyContext
            (L .CreateContext (L .DebugCheckVersionAndDataLayout m.world).2).2).2
      ∧ (run L history m).bridge = m.bridge
      ∧ ((∀ p, op ≠ .igRenderDrawData p) → issued L op m1 = issued L op m2)
      ∧ (drawData L m1.world = drawData L m2.world → issued L op m1 = issued L op m2) := by
  refine ⟨rfl, rfl, run_bridge L history m, ?_, ?_⟩
  · intro h
    rw [issued_eq, issued_eq]
    cases op <;> simp [callsOf] at h ⊢
  · intro h
    rw [issued_eq, issued_eq, h]

end ImguiBridge
